import Mathlib

/-!
Verification of the graphpipeline data-source core against its specification.

The definitions below are a shallow embedding of the Python sources:
  graphpipeline/datasource/datasource.py
  graphpipeline/datasource/datasourceversion.py
  graphpipeline/datasource/helper/downloader.py
  graphpipeline/datasource/helper/filehandler.py
Pure functions are translated to Lean functions; filesystem and network
effects are made explicit through oracle parameters (predicates saying
which paths exist, which downloads succeed, what a HEAD request answers).
Python exceptions are modelled with Option/Except.
-/

namespace GraphPipeline

/-! ## Python string primitives -/

/-- Boolean infix test on character lists: is `sub` a contiguous
subsequence of `s`?  This is Python's `sub in s` on strings. -/
def containsChars (sub s : List Char) : Bool :=
  match s with
  | [] => sub.isEmpty
  | c :: rest => sub.isPrefixOf (c :: rest) || containsChars sub rest

/-- Python's `x in dirname` substring test on strings. -/
def pyInStr (x s : String) : Bool :=
  containsChars x.toList s.toList

/-- Python's `s.startswith(pre)`. -/
def pyStartsWith (s pre : String) : Bool :=
  pre.toList.isPrefixOf s.toList

/-- Python's `s[n:]` slicing by character count. -/
def pyDrop (s : String) (n : Nat) : String :=
  (s.toList.drop n).asString

/-! ## Download-argument dictionaries and `setify_dict`
    (datasource.py, lines 119-135) -/

/-- A value of a `download_arguments` dictionary: a JSON scalar (modelled
as its string rendering) or an array of strings. -/
inductive ArgValue where
  | scalar (s : String)
  | list (l : List String)
deriving DecidableEq

/-- A value of the dictionary produced by `setify_dict`: scalars are kept,
list values are loaded into Python sets.  The payload of `set` keeps the
construction order but equality on sets is extensional (see `svalEqb`). -/
inductive SetArgValue where
  | scalar (s : String)
  | set (l : List String)
deriving DecidableEq

/-- Python dictionaries are modelled as association lists with distinct
keys; `dlookup` is `d[k]` / `d.get(k)`. -/
def dlookup {α : Type} (d : List (String × α)) (k : String) : Option α :=
  match d with
  | [] => none
  | (k2, v) :: rest => if k2 = k then some v else dlookup rest k

/-- `setify_dict` (datasource.py lines 119-135): every list value is loaded
into a set, all other values are kept. -/
def setify_dict (d : List (String × ArgValue)) : List (String × SetArgValue) :=
  d.map (fun kv =>
    (kv.1,
      match kv.2 with
      | ArgValue.scalar s => SetArgValue.scalar s
      | ArgValue.list l => SetArgValue.set l))

/-- Equality of two Python sets of strings: extensional membership. -/
def listSetEqb (l1 l2 : List String) : Bool :=
  l1.all (fun x => l2.contains x) && l2.all (fun x => l1.contains x)

/-- Python `==` on the values of a setified dictionary: scalar equality,
extensional set equality, `False` across the two shapes. -/
def svalEqb : SetArgValue → SetArgValue → Bool
  | SetArgValue.scalar s, SetArgValue.scalar t => s == t
  | SetArgValue.set l1, SetArgValue.set l2 => listSetEqb l1 l2
  | _, _ => false

/-- Python `==` on two dictionaries (same keys, equal values). -/
def sdictEqb (d e : List (String × SetArgValue)) : Bool :=
  (d.all fun kv =>
    match dlookup e kv.1 with
    | some v => svalEqb kv.2 v
    | none => false)
  && (e.all fun kv =>
    match dlookup d kv.1 with
    | some v => svalEqb kv.2 v
    | none => false)

/-! ## Local instances and `latest_local_instance`
    (datasource.py, lines 192-199 and 304-332) -/

/-- The part of a `DataSourceInstance` that `latest_local_instance`
inspects: its id, its `instance_created` timestamp (timestamps are totally
ordered; we model them as naturals) and its stored download arguments. -/
structure Instance where
  uuid : String
  instance_created : Nat
  download_arguments : List (String × ArgValue)
deriving DecidableEq

/-- Does `instance` match the requested download arguments?  This is the
test `setify_dict(instance.download_arguments) == setify_dict(download_arguments)`
of datasource.py line 317. -/
def matches_arguments (inst : Instance) (args : List (String × ArgValue)) : Bool :=
  sdictEqb (setify_dict inst.download_arguments) (setify_dict args)

/-- The accumulator loop of `latest_local_instance` without argument check
(datasource.py lines 325-330): `latest` starts as `None`; each instance
replaces it when `instance.instance_created > latest.instance_created`. -/
def latest_fold (insts : List Instance) (acc : Option Instance) : Option Instance :=
  match insts with
  | [] => acc
  | i :: rest =>
    match acc with
    | none => latest_fold rest (some i)
    | some cur =>
      if cur.instance_created < i.instance_created then latest_fold rest (some i)
      else latest_fold rest (some cur)

/-- The accumulator loop of `latest_local_instance` with argument check
(datasource.py lines 316-321): instances whose setified arguments differ
from the request are not considered. -/
def latest_fold_checked (args : List (String × ArgValue)) (insts : List Instance)
    (acc : Option Instance) : Option Instance :=
  match insts with
  | [] => acc
  | i :: rest =>
    if matches_arguments i args then
      match acc with
      | none => latest_fold_checked args rest (some i)
      | some cur =>
        if cur.instance_created < i.instance_created then
          latest_fold_checked args rest (some i)
        else latest_fold_checked args rest (some cur)
    else latest_fold_checked args rest acc

/-- `latest_local_instance` (datasource.py lines 304-332).  `insts` is the
sequence of Ready instances in the order `instances_local` enumerates the
data-source directory. -/
def latest_local_instance (insts : List Instance) (argumentCheck : Bool)
    (args : List (String × ArgValue)) : Option Instance :=
  if argumentCheck then latest_fold_checked args insts none
  else latest_fold insts none

/-! ## Instance finalization: `store` and `wrap_up`
    (datasource.py, lines 642-670) -/

/-- The on-disk state of one instance's two directory names.
`building = some b` means the `process_<uuid>` directory exists and `b`
records whether it holds a valid, completely written `metadata.json`;
`ready = some b` likewise for the `<uuid>` directory. -/
structure InstFS where
  building : Option Bool
  ready : Option Bool
deriving DecidableEq

/-- `DataSourceInstance.store` (datasource.py lines 651-655): open
`process_<uuid>/metadata.json` and dump the manifest.  `writeOk` is the
oracle for the write succeeding; a missing Building directory or a failed
write raises, carrying the filesystem state at the time of the raise
(a failed dump leaves at most an invalid partial manifest behind). -/
def store (writeOk : Bool) (fs : InstFS) : Except InstFS InstFS :=
  match fs.building with
  | none => Except.error fs
  | some _ =>
    if writeOk then Except.ok { fs with building := some true }
    else Except.error { fs with building := some false }

/-- `DataSourceInstance.wrap_up` (datasource.py lines 657-663): set
`finished`, call `store()`, then `os.rename(process_instance_dir,
instance_dir)`.  An exception from `store` propagates, so the rename is
only reached after the manifest was written into the Building directory;
the rename moves that directory's content to the Ready name. -/
def wrap_up (writeOk : Bool) (fs : InstFS) : Except InstFS InstFS :=
  match store writeOk fs with
  | Except.error e => Except.error e
  | Except.ok fs2 =>
    match fs2.building with
    | some m => Except.ok { building := none, ready := some m }
    | none => Except.error fs2

/-- The state of the Ready directory after a call that may have raised:
a Python exception leaves its side effects applied, so we read the
filesystem out of both the `ok` and the `error` outcome. -/
def readyAfter (r : Except InstFS InstFS) : Option Bool :=
  match r with
  | Except.ok s => s.ready
  | Except.error s => s.ready

/-! ## Single-file FTP download with retries
    (downloader.py, lines 152-192) -/

/-- The `for i in range(3)` retry loop of `_download_file_ftp`:
`attempt i` tells whether the i-th connect-and-RETR attempt succeeds
(`false` = it raises an `EOFError`, which is caught and logged).  On
success the local file path is returned; the loop performs at most `fuel`
further attempts. -/
def ftp_download_loop (attempt : Nat → Bool) (filepath : String)
    (i fuel : Nat) : Option String :=
  match fuel with
  | 0 => none
  | f + 1 =>
    if attempt i then some filepath
    else ftp_download_loop attempt filepath (i + 1) f

/-- `_download_file_ftp` (downloader.py lines 152-192) with `retries = 3`:
three attempts; falling out of the loop raises
`ValueError(f"File .. not available")` naming the parsed remote path. -/
def download_file_ftp (attempt : Nat → Bool) (remotePath filepath : String) :
    Except String String :=
  match ftp_download_loop attempt filepath 0 3 with
  | some p => Except.ok p
  | none => Except.error ("File " ++ remotePath ++ " not available")

/-! ## Single-file download dispatch
    (downloader.py, lines 60-92) -/

/-- What `requests.head(remote_url, allow_redirects=False)` answers:
the status code and the `Location` header (only read on a 302). -/
structure HeadResp where
  status : Nat
  location : String
deriving DecidableEq

/-- The externally visible steps `download_file` takes, in order. -/
inductive DlStep where
  | headNoRedirect (url : String)
  | ftpFetch (url : String)
  | httpGet (url : String)
  | attributeError (url : String)
deriving DecidableEq

/-- `download_file` (downloader.py lines 60-92) as the ordered list of its
protocol-level steps: for an `http(s)` URL first a HEAD without following
redirects; on a 302 whose Location starts with `ftp://` the file is fetched
over FTP (that result is returned, the redirect is not followed over HTTP);
otherwise a plain streaming GET.  For `ftp://` URLs a direct FTP fetch;
anything else raises `AttributeError`. -/
def download_file (head : String → HeadResp) (remote_url : String) : List DlStep :=
  if pyStartsWith remote_url "http" then
    let r := head remote_url
    DlStep.headNoRedirect remote_url ::
      (if r.status == 302 && pyStartsWith r.location "ftp://" then
        [DlStep.ftpFetch r.location]
      else
        [DlStep.httpGet remote_url])
  else if pyStartsWith remote_url "ftp://" then
    [DlStep.ftpFetch remote_url]
  else
    [DlStep.attributeError remote_url]

/-! ## Recursive FTP directory mirror
    (downloader.py, lines 218-309) -/

/-- `os.path.join(a, b)` for a relative name `b` (the only shape the
mirror produces): `a + "/" + b`, with a trailing slash when `b` is empty. -/
def pjoin (a b : String) : String :=
  if b = "" then a ++ "/" else a ++ "/" ++ b

/-- One directory yielded by `ftp_host.walk(source)`: its remote path and
the plain files it holds, in listing order. -/
structure WalkEntry where
  dirname : String
  files : List String
deriving DecidableEq

/-- The ambient parameters and oracles of `download_directory_from_ftp`:
the black/whitelists, the `overwrite` flag, which local files/directories
already exist, and which remote files are still fetchable (`false` =
`ftp_host.download` raises `FTPIOError`, the file vanished between the
listing and the fetch). -/
structure MirrorEnv where
  file_blacklist : List String
  dir_blacklist : List String
  dir_whitelist : List String
  overwrite : Bool
  isLocalFile : String → Bool
  localDirExists : String → Bool
  remoteAvailable : String → Bool

/-- The inner `for f in files` loop (downloader.py lines 288-305) for one
processed directory.  Returns the pairs of lists
`(appended to local_files, actually written to disk)`:
`local_files.append(local_file)` (line 303) runs for every file not in
`file_blacklist`, whether the file was downloaded, skipped because it
already exists with `overwrite` false, or lost to a caught `FTPIOError`;
the second list records the downloads that actually completed. -/
def mirror_files (env : MirrorEnv) (this_target_dir dirname : String) :
    List String → List String × List String
  | [] => ([], [])
  | f :: rest =>
    if env.file_blacklist.contains f then mirror_files env this_target_dir dirname rest
    else
      let remote_file := pjoin dirname f
      let local_file := pjoin this_target_dir f
      let wrote : Bool :=
        if env.overwrite then true
        else if env.isLocalFile local_file then false
        else env.remoteAvailable remote_file
      let step := mirror_files env this_target_dir dirname rest
      (local_file :: step.1, if wrote then local_file :: step.2 else step.2)

/-- Should this directory be processed?  Faithful to downloader.py lines
278-281: skip when a blacklist substring occurs in the path; otherwise,
when the whitelist is non-empty and some whitelist substring occurs in the
path, `continue` — i.e. the directory is skipped (note the inversion
against the comment "continue if whitelist and dirname not in whitelist"). -/
def mirror_processes_dir (env : MirrorEnv) (dirname : String) : Bool :=
  if env.dir_blacklist.any (fun x => pyInStr x dirname) then false
  else if !env.dir_whitelist.isEmpty && env.dir_whitelist.any (fun x => pyInStr x dirname) then
    false
  else true

/-- The walk loop of `download_directory_from_ftp` (downloader.py lines
267-307).  Returns `(local_files, written, dirs_created)`: the list the
function returns, the files its downloads actually wrote, and the local
directories it created with `os.mkdir`. -/
def mirror_walk (env : MirrorEnv) (source target : String) :
    List WalkEntry → List String × List String × List String
  | [] => ([], [], [])
  | e :: rest =>
    if mirror_processes_dir env e.dirname then
      let this_target := pyDrop e.dirname (source.length + 1)
      let this_target_dir := pjoin target this_target
      let created := if env.localDirExists this_target_dir then [] else [this_target_dir]
      let step := mirror_files env this_target_dir e.dirname e.files
      let tail := mirror_walk env source target rest
      (step.1 ++ tail.1, step.2 ++ tail.2.1, created ++ tail.2.2)
    else mirror_walk env source target rest

/-- `download_directory_from_ftp` (downloader.py lines 218-309) for an
already-connected walk listing; `source` and `target` are given with
trailing slashes already stripped, as the function does itself. -/
def download_directory_from_ftp (env : MirrorEnv) (source target : String)
    (walk : List WalkEntry) : List String × List String × List String :=
  mirror_walk env source target walk

/-- A concrete mirror environment for exercising the whitelist test:
whitelist `["human"]`, no blacklists, `overwrite` true, empty local disk,
every remote file fetchable. -/
def c2Env : MirrorEnv :=
  { file_blacklist := [], dir_blacklist := [], dir_whitelist := ["human"],
    overwrite := true,
    isLocalFile := fun _ => false, localDirExists := fun _ => false,
    remoteAvailable := fun _ => true }

/-- A concrete mirror environment for the returned-list claim:
`overwrite` false, `/t/sub/a.txt` already present locally, every remote
fetch failing with `FTPIOError` (the file vanished after listing). -/
def c8Env : MirrorEnv :=
  { file_blacklist := [], dir_blacklist := [], dir_whitelist := [],
    overwrite := false,
    isLocalFile := fun p => p == "/t/sub/a.txt",
    localDirExists := fun _ => true,
    remoteAvailable := fun _ => false }

/-! ## Looking an instance up by uuid
    (datasource.py, lines 298-302 and 609-640) -/

/-- The manifest data reconstructed by `DataSourceInstance.read`; its
contents are irrelevant to the lookup claims, only that one is built. -/
structure Manifest where
  uuid : String
deriving DecidableEq

/-- `DataSourceInstance.read` (datasource.py lines 609-640): when the path
exists, the manifest is loaded (`loadManifest` may raise, e.g. a missing or
corrupt `metadata.json`) and an instance is constructed; when the path does
not exist the function falls through and implicitly returns `None`. -/
def instance_read (pathExists : String → Bool)
    (loadManifest : String → Except Unit Manifest) (path : String) :
    Except Unit (Option Manifest) :=
  if pathExists path then
    match loadManifest path with
    | Except.ok m => Except.ok (some m)
    | Except.error e => Except.error e
  else Except.ok none

/-- `BaseDataSource.get_instance_by_uuid` (datasource.py lines 298-302):
`instance_path = os.path.join(self.ds_dir, uuid)`; `read` is only invoked
when the path exists, otherwise the function implicitly returns `None`. -/
def get_instance_by_uuid (pathExists : String → Bool)
    (loadManifest : String → Except Unit Manifest) (ds_dir uuid : String) :
    Except Unit (Option Manifest) :=
  let instance_path := ds_dir ++ "/" ++ uuid
  if pathExists instance_path then
    instance_read pathExists loadManifest instance_path
  else Except.ok none

/-! ## DataSourceVersion comparisons
    (datasourceversion.py, lines 13-122)

`DataSourceVersion.version` holds one of three representations: a
`distutils LooseVersion` (a list of int and str components), a
`datetime.date`, or a `datetime.datetime`.  Every comparison operator
wraps the underlying Python comparison in `try .. except TypeError`,
logging a warning and (implicitly) returning `None` when it raises.  We
model each operator as `Option Bool`: `some b` is a returned boolean,
`none` is the caught-TypeError / warning / `None` outcome. -/

/-- One component of a `LooseVersion`: an integer or a string field. -/
inductive LVComp where
  | num (n : Nat)
  | str (s : String)
deriving DecidableEq

/-- A `datetime.date`. -/
structure PDate where
  year : Nat
  month : Nat
  day : Nat
deriving DecidableEq

/-- A `datetime.datetime` (naive). -/
structure PDateTime where
  year : Nat
  month : Nat
  day : Nat
  hour : Nat
  minute : Nat
  second : Nat
  microsecond : Nat
deriving DecidableEq

/-- The underlying representation held in `DataSourceVersion.version`. -/
inductive VRep where
  | loose (v : List LVComp)
  | date (d : PDate)
  | datetime (t : PDateTime)
deriving DecidableEq

/-- The kind of the underlying representation. -/
inductive VKind where
  | loose
  | date
  | datetime
deriving DecidableEq

/-- Kind of a version representation. -/
def kindOf : VRep → VKind
  | VRep.loose _ => VKind.loose
  | VRep.date _ => VKind.date
  | VRep.datetime _ => VKind.datetime

/-- Python `==` between two LooseVersion components: mixed int/str
compares unequal (it does not raise). -/
def compEqb : LVComp → LVComp → Bool
  | LVComp.num a, LVComp.num b => a == b
  | LVComp.str a, LVComp.str b => a == b
  | _, _ => false

/-- Python ordering between two LooseVersion components: `none` models the
`TypeError` that `int < str` raises in Python 3. -/
def compCmpE : LVComp → LVComp → Option Ordering
  | LVComp.num a, LVComp.num b => some (compare a b)
  | LVComp.str a, LVComp.str b => some (compare a b)
  | _, _ => none

/-- Python's ordering of two component lists (the comparison
`distutils Version._cmp` performs on `LooseVersion.version`): walk the
lists; the first non-`==` pair decides the order (raising `TypeError`,
i.e. `none`, when that pair mixes int and str); a strict prefix is
smaller. -/
def listCmpE : List LVComp → List LVComp → Option Ordering
  | [], [] => some Ordering.eq
  | [], _ :: _ => some Ordering.lt
  | _ :: _, [] => some Ordering.gt
  | a :: as, b :: bs => if compEqb a b then listCmpE as bs else compCmpE a b

/-- Lexicographic comparison of two dates. -/
def dateCmp (a b : PDate) : Ordering :=
  (compare a.year b.year).then ((compare a.month b.month).then (compare a.day b.day))

/-- Lexicographic comparison of two datetimes. -/
def datetimeCmp (a b : PDateTime) : Ordering :=
  (compare a.year b.year).then ((compare a.month b.month).then
    ((compare a.day b.day).then ((compare a.hour b.hour).then
      ((compare a.minute b.minute).then ((compare a.second b.second).then
        (compare a.microsecond b.microsecond))))))

/-- Python's ordering of the two underlying representations
(`self.version < other.version` and friends).  Across different kinds both
operands answer `NotImplemented` (respectively `datetime ._cmperror`), so
the interpreter raises `TypeError`: modelled as `none`.  Same-kind
LooseVersion pairs may also raise, through `listCmpE`. -/
def versionCmpE : VRep → VRep → Option Ordering
  | VRep.loose a, VRep.loose b => listCmpE a b
  | VRep.date a, VRep.date b => some (dateCmp a b)
  | VRep.datetime a, VRep.datetime b => some (datetimeCmp a b)
  | _, _ => none

/-- `DataSourceVersion.__lt__` (datasourceversion.py lines 80-89). -/
def dsv_lt (a b : VRep) : Option Bool :=
  (versionCmpE a b).map (fun c => c == Ordering.lt)

/-- `DataSourceVersion.__le__` (datasourceversion.py lines 91-100). -/
def dsv_le (a b : VRep) : Option Bool :=
  (versionCmpE a b).map (fun c => c == Ordering.lt || c == Ordering.eq)

/-- `DataSourceVersion.__gt__` (datasourceversion.py lines 102-111). -/
def dsv_gt (a b : VRep) : Option Bool :=
  (versionCmpE a b).map (fun c => c == Ordering.gt)

/-- `DataSourceVersion.__ge__` (datasourceversion.py lines 113-122). -/
def dsv_ge (a b : VRep) : Option Bool :=
  (versionCmpE a b).map (fun c => c == Ordering.gt || c == Ordering.eq)

/-- `DataSourceVersion.__eq__` (datasourceversion.py lines 64-70):
`self.version == other.version` inside `try .. except TypeError`.
Across different kinds Python's `==` does NOT raise: both operands answer
`NotImplemented` (or `datetime.__eq__` answers `False` against a plain
date) and the interpreter falls back to identity, yielding `False` — so
the except-branch is dead there and a plain boolean is returned.  For two
LooseVersions, `Version.__eq__` goes through `_cmp`, which can raise on
unequal lists with mixed components. -/
def dsv_eq : VRep → VRep → Option Bool
  | VRep.loose a, VRep.loose b => (listCmpE a b).map (fun c => c == Ordering.eq)
  | VRep.date a, VRep.date b => some (a == b)
  | VRep.datetime a, VRep.datetime b => some (a == b)
  | _, _ => some false

/-- `DataSourceVersion.__ne__` (datasourceversion.py lines 72-78): the
negation of `__eq__` under the same exception behavior; across kinds it
returns `True`. -/
def dsv_ne : VRep → VRep → Option Bool
  | VRep.loose a, VRep.loose b => (listCmpE a b).map (fun c => !(c == Ordering.eq))
  | VRep.date a, VRep.date b => some (!(a == b))
  | VRep.datetime a, VRep.datetime b => some (!(a == b))
  | _, _ => some true

/-! ## Timestamp directory names
    (filehandler.py, lines 14-31)

`_dirname_from_datetime(t)` is `str(t).replace(' ', '___').replace(':',
'__').replace('.', '_')`; `_datetime_from_dirname(d)` is
`dateutil.parser.parse(d.replace('___', ' ').replace('__', ':').replace('_',
'.'))`.  We model strings as `List Char`, `str.replace` as the left-to-right
non-overlapping scan `pyreplace`, `str(datetime)` (CPython
`datetime.isoformat(sep=' ')`, zero-padded fields, fractional part omitted
when the microsecond is 0) as `pyStrDatetime`, and `dateutil.parser.parse`
restricted to these canonical renderings as `parseCanonicalDatetime`. -/

/-- Python `str.replace(pat, rep)`: scan left to right, replacing each
leftmost non-overlapping occurrence of `pat`. -/
def pyreplace (s pat rep : List Char) : List Char :=
  match s, pat with
  | [], _ => []
  | c :: rest, [] => c :: rest
  | c :: rest, p :: ps =>
    if (p :: ps).isPrefixOf (c :: rest) then
      rep ++ pyreplace (rest.drop ps.length) (p :: ps) rep
    else
      c :: pyreplace rest (p :: ps) rep
termination_by s.length
decreasing_by
  · simp only [List.length_cons, List.length_drop]
    omega
  · simp only [List.length_cons]
    omega

/-- The decimal digit character for `n < 10`. -/
def digitChar (n : Nat) : Char := Char.ofNat (48 + n)

/-- Numeric value of a digit character. -/
def digitVal (c : Char) : Nat := c.toNat - 48

/-- Two-digit zero-padded rendering (`%02d`, for values below 100). -/
def pad2 (n : Nat) : List Char := [digitChar (n / 10), digitChar (n % 10)]

/-- Four-digit zero-padded rendering (`%04d`, for values below 10000). -/
def pad4 (n : Nat) : List Char :=
  [digitChar (n / 1000), digitChar (n / 100 % 10), digitChar (n / 10 % 10), digitChar (n % 10)]

/-- Six-digit zero-padded rendering (`%06d`, for values below 1000000). -/
def pad6 (n : Nat) : List Char :=
  [digitChar (n / 100000), digitChar (n / 10000 % 10), digitChar (n / 1000 % 10),
    digitChar (n / 100 % 10), digitChar (n / 10 % 10), digitChar (n % 10)]

/-- The fractional-seconds part of `str(datetime)`: absent when the
microsecond is zero, otherwise a dot and six digits. -/
def microTail (us : Nat) : List Char :=
  if us == 0 then [] else '.' :: pad6 us

/-- The encoded fractional part after the dot was replaced by an
underscore. -/
def usTail (us : Nat) : List Char :=
  if us == 0 then [] else '_' :: pad6 us

/-- CPython `str(t)` for a naive `datetime.datetime`:
`YYYY-MM-DD HH:MM:SS[.ffffff]`, the fractional part present exactly when
`microsecond` is non-zero. -/
def pyStrDatetime (t : PDateTime) : List Char :=
  pad4 t.year ++ '-' :: (pad2 t.month ++ '-' :: (pad2 t.day ++ ' ' ::
    (pad2 t.hour ++ ':' :: (pad2 t.minute ++ ':' :: (pad2 t.second ++
      microTail t.microsecond)))))

/-- `_dirname_from_datetime` (filehandler.py lines 14-21). -/
def dirname_from_datetime (t : PDateTime) : List Char :=
  pyreplace (pyreplace (pyreplace (pyStrDatetime t) [' '] ['_', '_', '_'])
    [':'] ['_', '_']) ['.'] ['_']

/-- The three inverse `replace` calls of `_datetime_from_dirname`
(filehandler.py line 31), before the `dateutil` parse. -/
def dirnameDecode (s : List Char) : List Char :=
  pyreplace (pyreplace (pyreplace s ['_', '_', '_'] [' ']) ['_', '_'] [':']) ['_'] ['.']

/-- Read exactly `k` decimal digits into an accumulator. -/
def readDigits (acc : Nat) : Nat → List Char → Option (Nat × List Char)
  | 0, s => some (acc, s)
  | _ + 1, [] => none
  | k + 1, c :: rest =>
    if c.isDigit then readDigits (acc * 10 + digitVal c) k rest else none

/-- Consume one expected character. -/
def expectChar (c : Char) : List Char → Option (List Char)
  | [] => none
  | x :: rest => if x = c then some rest else none

/-- Does a parsed datetime lie in the ranges `dateutil` accepts
(`datetime.datetime` field ranges; days are bounded by 31 here — the
per-month day count does not matter for the claims)? -/
def validDT (t : PDateTime) : Prop :=
  1 ≤ t.year ∧ t.year ≤ 9999 ∧ 1 ≤ t.month ∧ t.month ≤ 12 ∧ 1 ≤ t.day ∧ t.day ≤ 31 ∧
    t.hour ≤ 23 ∧ t.minute ≤ 59 ∧ t.second ≤ 59 ∧ t.microsecond ≤ 999999

instance (t : PDateTime) : Decidable (validDT t) := by
  unfold validDT
  infer_instance

/-- `dateutil.parser.parse` restricted to the canonical
`YYYY-MM-DD HH:MM:SS[.ffffff]` strings produced by `str(datetime)`:
fixed-width numeric fields, optional 6-digit fraction, field-range
validation. -/
def parseCanonicalDatetime (s : List Char) : Option PDateTime :=
  (readDigits 0 4 s).bind fun p1 =>
  (expectChar '-' p1.2).bind fun s1 =>
  (readDigits 0 2 s1).bind fun p2 =>
  (expectChar '-' p2.2).bind fun s2 =>
  (readDigits 0 2 s2).bind fun p3 =>
  (expectChar ' ' p3.2).bind fun s3 =>
  (readDigits 0 2 s3).bind fun p4 =>
  (expectChar ':' p4.2).bind fun s4 =>
  (readDigits 0 2 s4).bind fun p5 =>
  (expectChar ':' p5.2).bind fun s5 =>
  (readDigits 0 2 s5).bind fun p6 =>
  (match p6.2 with
    | [] => some (PDateTime.mk p1.1 p2.1 p3.1 p4.1 p5.1 p6.1 0)
    | _ =>
      (expectChar '.' p6.2).bind fun s6 =>
      (readDigits 0 6 s6).bind fun p7 =>
      match p7.2 with
      | [] => some (PDateTime.mk p1.1 p2.1 p3.1 p4.1 p5.1 p6.1 p7.1)
      | _ => none).bind fun t =>
  if validDT t then some t else none

/-- `_datetime_from_dirname` (filehandler.py lines 24-31): undo the three
sentinel substitutions, then parse. -/
def datetime_from_dirname (s : List Char) : Option PDateTime :=
  parseCanonicalDatetime (dirnameDecode s)

/-- The fully encoded directory name: the space became `___`, each colon
`__`, the dot `_`. -/
def encodedDatetime (t : PDateTime) : List Char :=
  pad4 t.year ++ '-' :: (pad2 t.month ++ '-' :: (pad2 t.day ++ '_' :: '_' :: '_' ::
    (pad2 t.hour ++ '_' :: '_' :: (pad2 t.minute ++ '_' :: '_' :: (pad2 t.second ++
      usTail t.microsecond)))))

/-! ## Theorems -/

/-- C3: during finalization (`wrap_up`) the manifest is written into the
Building directory strictly before the rename to the Ready name, and any
error while writing the manifest prevents the rename: whatever the
outcome, a Ready directory appears exactly when the manifest write
succeeded, and then it contains the valid manifest the rename carried over
from the Building directory — finalization never produces a Ready
directory without a valid manifest. -/
theorem c3_wrap_up_manifest_before_rename (w : Bool) (fs : InstFS) (b : Bool)
    (hb : fs.building = some b) (hr : fs.ready = none) :
    readyAfter (wrap_up w fs) = (if w then some true else none) := by
  cases w <;> simp [wrap_up, store, readyAfter, hb, hr]

/-- Witness for C3 at a concrete Building-state filesystem: a failing
manifest write leaves no Ready directory, a successful one produces a
Ready directory holding the manifest. -/
theorem c3_wrap_up_manifest_before_rename_witness :
    readyAfter (wrap_up false (InstFS.mk (some false) none)) = none ∧
    readyAfter (wrap_up true (InstFS.mk (some false) none)) = some true := by
  constructor
  · simpa using
      c3_wrap_up_manifest_before_rename false (InstFS.mk (some false) none) false rfl rfl
  · simpa using
      c3_wrap_up_manifest_before_rename true (InstFS.mk (some false) none) false rfl rfl

/-- C7: `_download_file_ftp` retries in place on `EOFError` with at most
three total attempts: if some of the first three attempts succeeds the
local file path is returned; if all three fail a `ValueError` naming the
remote path is raised; and the outcome depends on nothing beyond the first
three attempts. -/
theorem c7_ftp_retry (attempt : Nat → Bool) (remotePath filepath : String) :
    ((∃ i, i < 3 ∧ attempt i = true) →
      download_file_ftp attempt remotePath filepath = Except.ok filepath)
    ∧ ((∀ i, i < 3 → attempt i = false) →
      download_file_ftp attempt remotePath filepath =
        Except.error ("File " ++ remotePath ++ " not available"))
    ∧ (∀ g : Nat → Bool, (∀ i, i < 3 → attempt i = g i) →
      download_file_ftp attempt remotePath filepath =
        download_file_ftp g remotePath filepath) := by
  refine ⟨?_, ?_, ?_⟩
  · rintro ⟨i, hi, ha⟩
    have h3 : i = 0 ∨ i = 1 ∨ i = 2 := by omega
    rcases h3 with rfl | rfl | rfl
    · simp [download_file_ftp, ftp_download_loop, ha]
    · cases h0 : attempt 0 <;> simp [download_file_ftp, ftp_download_loop, h0, ha]
    · cases h0 : attempt 0 <;> cases h1 : attempt 1 <;>
        simp [download_file_ftp, ftp_download_loop, h0, h1, ha]
  · intro h
    simp [download_file_ftp, ftp_download_loop, h 0 (by omega), h 1 (by omega), h 2 (by omega)]
  · intro g hg
    simp [download_file_ftp, ftp_download_loop, hg 0 (by omega), hg 1 (by omega), hg 2 (by omega)]

/-- Witness for C7: two EOF failures then a success on the third attempt
return the downloaded path; three failures raise the error naming the
remote path. -/
theorem c7_ftp_retry_witness :
    download_file_ftp (fun i => i == 2) "/pub/data.txt" "/tmp/data.txt" =
      Except.ok "/tmp/data.txt" ∧
    download_file_ftp (fun _ => false) "/pub/data.txt" "/tmp/data.txt" =
      Except.error ("File " ++ "/pub/data.txt" ++ " not available") := by
  constructor
  · exact (c7_ftp_retry (fun i => i == 2) "/pub/data.txt" "/tmp/data.txt").1 ⟨2, by omega, rfl⟩
  · exact (c7_ftp_retry (fun _ => false) "/pub/data.txt" "/tmp/data.txt").2.1 (fun i _ => rfl)

/-- C9: `download_file` on an `http(s)` URL first issues a HEAD without
following redirects; if that answers 302 with an `ftp://` Location the
file is fetched via FTP (no HTTP redirect is followed), otherwise the
plain streaming GET runs; a direct `ftp://` URL goes straight to FTP; any
other scheme raises `AttributeError`. -/
theorem c9_download_file_dispatch (head : String → HeadResp) (url : String) :
    (pyStartsWith url "http" = true →
      ((head url).status == 302 && pyStartsWith (head url).location "ftp://") = true →
      download_file head url =
        [DlStep.headNoRedirect url, DlStep.ftpFetch (head url).location])
    ∧ (pyStartsWith url "http" = true →
      ((head url).status == 302 && pyStartsWith (head url).location "ftp://") = false →
      download_file head url = [DlStep.headNoRedirect url, DlStep.httpGet url])
    ∧ (pyStartsWith url "http" = false → pyStartsWith url "ftp://" = true →
      download_file head url = [DlStep.ftpFetch url])
    ∧ (pyStartsWith url "http" = false → pyStartsWith url "ftp://" = false →
      download_file head url = [DlStep.attributeError url]) := by
  refine ⟨?_, ?_, ?_, ?_⟩ <;> intro h1 h2 <;> simp [download_file, h1, h2]

/-- Witness for C9 at concrete URLs: an ftp-redirecting HEAD answer
switches the fetch to FTP, a direct ftp URL fetches over FTP, and a
non-http non-ftp URL raises. -/
theorem c9_download_file_dispatch_witness :
    download_file (fun _ => HeadResp.mk 302 "ftp://mirror/f.gz") "http://host/f.gz" =
      [DlStep.headNoRedirect "http://host/f.gz", DlStep.ftpFetch "ftp://mirror/f.gz"] ∧
    download_file (fun _ => HeadResp.mk 200 "") "ftp://host/f.gz" =
      [DlStep.ftpFetch "ftp://host/f.gz"] ∧
    download_file (fun _ => HeadResp.mk 200 "") "sftp://host/f.gz" =
      [DlStep.attributeError "sftp://host/f.gz"] := by
  refine ⟨?_, ?_, ?_⟩
  · exact (c9_download_file_dispatch (fun _ => HeadResp.mk 302 "ftp://mirror/f.gz")
      "http://host/f.gz").1 (by decide) (by decide)
  · exact (c9_download_file_dispatch (fun _ => HeadResp.mk 200 "") "ftp://host/f.gz").2.2.1
      (by decide) (by decide)
  · exact (c9_download_file_dispatch (fun _ => HeadResp.mk 200 "") "sftp://host/f.gz").2.2.2
      (by decide) (by decide)

/-- C10: when no directory with the given uuid exists under the data
source directory, `get_instance_by_uuid` and `DataSourceInstance.read`
both return an absent result (`None`) without raising; an instance is
only constructed when the directory exists. -/
theorem c10_get_instance_missing_uuid (pathExists : String → Bool)
    (loadManifest : String → Except Unit Manifest) (ds_dir uuid : String)
    (h : pathExists (ds_dir ++ "/" ++ uuid) = false) :
    get_instance_by_uuid pathExists loadManifest ds_dir uuid = Except.ok none ∧
    instance_read pathExists loadManifest (ds_dir ++ "/" ++ uuid) = Except.ok none := by
  constructor <;> simp [get_instance_by_uuid, instance_read, h]

/-- Witness for C10 on an empty filesystem whose manifest loader always
raises: the lookup still answers an absent result, not an error. -/
theorem c10_get_instance_missing_uuid_witness :
    get_instance_by_uuid (fun _ => false) (fun _ => Except.error ()) "root/DS" "abc-123" =
      Except.ok none ∧
    instance_read (fun _ => false) (fun _ => Except.error ()) ("root/DS" ++ "/" ++ "abc-123") =
      Except.ok none :=
  c10_get_instance_missing_uuid (fun _ => false) (fun _ => Except.error ()) "root/DS" "abc-123" rfl

/-- `latest_fold` never loses a candidate: starting from a present
accumulator the result is present. -/
lemma latest_fold_isSome (l : List Instance) :
    ∀ cur : Instance, ∃ x, latest_fold l (some cur) = some x := by
  induction l with
  | nil => intro cur; exact ⟨cur, rfl⟩
  | cons i rest ih =>
    intro cur
    by_cases h : cur.instance_created < i.instance_created
    · simpa [latest_fold, h] using ih i
    · simpa [latest_fold, h] using ih cur

/-- The result of `latest_fold` is one of the scanned instances or the
initial accumulator. -/
lemma latest_fold_mem (l : List Instance) :
    ∀ (acc : Option Instance) (x : Instance),
      latest_fold l acc = some x → x ∈ l ∨ acc = some x := by
  induction l with
  | nil => intro acc x h; right; simpa [latest_fold] using h
  | cons i rest ih =>
    intro acc x h
    cases acc with
    | none =>
      rcases ih (some i) x (by simpa [latest_fold] using h) with hm | he
      · exact Or.inl (List.mem_cons_of_mem i hm)
      · exact Or.inl (by simp [Option.some.injEq] at he; simp [he])
    | some cur =>
      by_cases hlt : cur.instance_created < i.instance_created
      · rcases ih (some i) x (by simpa [latest_fold, hlt] using h) with hm | he
        · exact Or.inl (List.mem_cons_of_mem i hm)
        · exact Or.inl (by simp [Option.some.injEq] at he; simp [he])
      · rcases ih (some cur) x (by simpa [latest_fold, hlt] using h) with hm | he
        · exact Or.inl (List.mem_cons_of_mem i hm)
        · exact Or.inr he

/-- The result of `latest_fold` dominates every scanned instance and the
initial accumulator in `instance_created`. -/
lemma latest_fold_max (l : List Instance) :
    ∀ (acc : Option Instance) (x : Instance),
      latest_fold l acc = some x →
      (∀ y ∈ l, y.instance_created ≤ x.instance_created) ∧
      (∀ cur, acc = some cur → cur.instance_created ≤ x.instance_created) := by
  induction l with
  | nil =>
    intro acc x h
    refine ⟨by simp, ?_⟩
    intro cur hc
    simp [latest_fold] at h
    rw [h] at hc
    simp at hc
    simp [hc]
  | cons i rest ih =>
    intro acc x h
    cases acc with
    | none =>
      have h2 := ih (some i) x (by simpa [latest_fold] using h)
      refine ⟨?_, by simp⟩
      intro y hy
      rcases List.mem_cons.mp hy with rfl | hy2
      · exact h2.2 y rfl
      · exact h2.1 y hy2
    | some cur =>
      by_cases hlt : cur.instance_created < i.instance_created
      · have h2 := ih (some i) x (by simpa [latest_fold, hlt] using h)
        have hi : i.instance_created ≤ x.instance_created := h2.2 i rfl
        refine ⟨?_, ?_⟩
        · intro y hy
          rcases List.mem_cons.mp hy with rfl | hy2
          · exact hi
          · exact h2.1 y hy2
        · intro c hc
          rw [Option.some.injEq] at hc
          subst hc
          omega
      · have h2 := ih (some cur) x (by simpa [latest_fold, hlt] using h)
        have hc : cur.instance_created ≤ x.instance_created := h2.2 cur rfl
        refine ⟨?_, ?_⟩
        · intro y hy
          rcases List.mem_cons.mp hy with rfl | hy2
          · omega
          · exact h2.1 y hy2
        · intro c hcc
          rw [Option.some.injEq] at hcc
          subst hcc
          exact hc

/-- C6: with `argument_check` false, `latest_local_instance` over any
enumeration order of three Ready instances created at t1 < t2 < t3
returns the t3 instance; when two instances tie on `instance_created`,
the first one encountered during enumeration is returned. -/
theorem c6_latest_nocheck_max_created :
    (∀ (a b c : Instance) (l : List Instance),
      a.instance_created < b.instance_created →
      b.instance_created < c.instance_created →
      l.Perm [a, b, c] →
      latest_local_instance l false [] = some c)
    ∧ (∀ a b : Instance, a.instance_created = b.instance_created →
      latest_local_instance [a, b] false [] = some a) := by
  constructor
  · intro a b c l hab hbc hperm
    obtain ⟨i, rest, rfl⟩ : ∃ i rest, l = i :: rest := by
      cases l with
      | nil => simpa using hperm.length_eq
      | cons i rest => exact ⟨i, rest, rfl⟩
    have hrun : latest_local_instance (i :: rest) false [] = latest_fold rest (some i) := by
      simp [latest_local_instance, latest_fold]
    obtain ⟨x, hx⟩ := latest_fold_isSome rest i
    have hxl : x ∈ i :: rest := by
      rcases latest_fold_mem rest (some i) x hx with hm | he
      · exact List.mem_cons_of_mem i hm
      · rw [Option.some.injEq] at he
        simp [he]
    have hcx : c.instance_created ≤ x.instance_created := by
      have hcl : c ∈ i :: rest := hperm.symm.subset (by simp)
      have hmax := latest_fold_max rest (some i) x hx
      rcases List.mem_cons.mp hcl with rfl | hcl2
      · exact hmax.2 c rfl
      · exact hmax.1 c hcl2
    have hx3 : x = a ∨ x = b ∨ x = c := by
      have hm := hperm.subset hxl
      simpa using hm
    have hxc : x = c := by
      rcases hx3 with rfl | rfl | rfl
      · exact absurd hcx (by omega)
      · exact absurd hcx (by omega)
      · rfl
    rw [hrun, hx, hxc]
  · intro a b h
    have hnlt : ¬ a.instance_created < b.instance_created := by omega
    simp [latest_local_instance, latest_fold, hnlt]

/-- Witness for C6: the maximal-creation-time instance is returned from a
shuffled enumeration, and a tie returns the first one enumerated. -/
theorem c6_latest_nocheck_max_created_witness :
    latest_local_instance
        [Instance.mk "u3" 3 [], Instance.mk "u1" 1 [], Instance.mk "u2" 2 []] false [] =
      some (Instance.mk "u3" 3 []) ∧
    latest_local_instance [Instance.mk "u1" 1 [], Instance.mk "u4" 1 []] false [] =
      some (Instance.mk "u1" 1 []) := by
  constructor
  · exact c6_latest_nocheck_max_created.1 (Instance.mk "u1" 1 []) (Instance.mk "u2" 2 [])
      (Instance.mk "u3" 3 [])
      [Instance.mk "u3" 3 [], Instance.mk "u1" 1 [], Instance.mk "u2" 2 []]
      (by decide) (by decide) (by decide)
  · exact c6_latest_nocheck_max_created.2 (Instance.mk "u1" 1 []) (Instance.mk "u4" 1 []) rfl

/-- C2 (code behavior at the failing input): with whitelist `["human"]`,
the walk entry `/pub/human` — whose path matches the whitelist — is
skipped (no local directory created, no file downloaded), while
`/pub/mouse` — which matches no whitelist entry — is processed and its
file downloaded.  This is the opposite of the claimed (and of the code
comment's own) whitelist semantics: line 280 of downloader.py tests
`any(x in dirname for x in dir_whitelist)` and then `continue`s. -/
theorem c2_whitelist_code_behavior :
    download_directory_from_ftp c2Env "/pub" "/t"
        [WalkEntry.mk "/pub/human" ["a.txt"], WalkEntry.mk "/pub/mouse" ["b.txt"]] =
      (["/t/mouse/b.txt"], ["/t/mouse/b.txt"], ["/t/mouse"]) ∧
    mirror_processes_dir c2Env "/pub/human" = false ∧
    mirror_processes_dir c2Env "/pub/mouse" = true := by
  refine ⟨by decide, by decide, by decide⟩

/-- C8 counterexample: mirroring `/pub/sub` with `overwrite` false, where
`a.txt` already exists locally (skipped) and `c.txt` vanishes before the
fetch (caught `FTPIOError`), writes no file at all, yet the returned list
contains both local paths — the returned list is not the list of files
actually written. -/
theorem c8_returned_list_counterexample :
    (download_directory_from_ftp c8Env "/pub" "/t"
        [WalkEntry.mk "/pub/sub" ["a.txt", "c.txt"]]).1 =
      ["/t/sub/a.txt", "/t/sub/c.txt"] ∧
    (download_directory_from_ftp c8Env "/pub" "/t"
        [WalkEntry.mk "/pub/sub" ["a.txt", "c.txt"]]).2.1 = [] := by
  refine ⟨by decide, by decide⟩

/-- The `local_files` lists contributed by one processed directory. -/
lemma mirror_files_fst (env : MirrorEnv) (this_target_dir dirname : String)
    (files : List String) :
    (mirror_files env this_target_dir dirname files).1 =
      (files.filter (fun f => !env.file_blacklist.contains f)).map
        (fun f => pjoin this_target_dir f) := by
  induction files with
  | nil => rfl
  | cons f rest ih =>
    by_cases h : f ∈ env.file_blacklist
    · simp [mirror_files, h, ih]
    · simp [mirror_files, h, ih]

/-- C8 amended: the list `download_directory_from_ftp` returns contains
the local path of every file (not in the file blacklist) of every
processed directory — including files skipped because they already exist
locally with `overwrite` false and files whose fetch failed with a caught
`FTPIOError` — rather than only the files actually written. -/
theorem c8_returned_list_amended (env : MirrorEnv) (source target : String)
    (walk : List WalkEntry) :
    (download_directory_from_ftp env source target walk).1 =
      (walk.filter (fun e => mirror_processes_dir env e.dirname)).flatMap
        (fun e =>
          (e.files.filter (fun f => !env.file_blacklist.contains f)).map
            (fun f => pjoin (pjoin target (pyDrop e.dirname (source.length + 1))) f)) := by
  induction walk with
  | nil => rfl
  | cons e rest ih =>
    by_cases h : mirror_processes_dir env e.dirname
    · simp [download_directory_from_ftp, mirror_walk, h, mirror_files_fst]
      simpa [download_directory_from_ftp] using ih
    · simp [download_directory_from_ftp, mirror_walk, h]
      simpa [download_directory_from_ftp] using ih

/-- C1 counterexample: take the claim's own example pair — the calendar
date `2013-05-06` and the ordered version string `10.3` (a LooseVersion).
`DataSourceVersion.__eq__` returns the default boolean `False` and
`__ne__` returns `True` for this cross-kind pair (Python's `==` falls
back to identity instead of raising `TypeError`, so the except-branch
that would signal incomparability is never reached), refuting the claim
that every comparison operator signals incomparability. -/
theorem c1_eq_cross_kind_counterexample :
    kindOf (VRep.date (PDate.mk 2013 5 6)) ≠ kindOf (VRep.loose [LVComp.num 10, LVComp.num 3]) ∧
    dsv_eq (VRep.date (PDate.mk 2013 5 6)) (VRep.loose [LVComp.num 10, LVComp.num 3]) =
      some false ∧
    dsv_ne (VRep.date (PDate.mk 2013 5 6)) (VRep.loose [LVComp.num 10, LVComp.num 3]) =
      some true ∧
    ¬ (dsv_eq (VRep.date (PDate.mk 2013 5 6)) (VRep.loose [LVComp.num 10, LVComp.num 3]) =
      none) := by
  refine ⟨by decide, rfl, rfl, by decide⟩

/-- C1 amended: for operands of different underlying kinds the four
ordering operators (`<`, `<=`, `>`, `>=`) do signal incomparability (the
underlying comparison raises `TypeError`, which is caught, a warning is
logged, and `None` — no boolean — is returned), but the equality
operators do not: `==` returns the default boolean `False` and `!=`
returns `True`. -/
theorem c1_cross_kind_comparisons (a b : VRep) (h : kindOf a ≠ kindOf b) :
    dsv_lt a b = none ∧ dsv_le a b = none ∧ dsv_gt a b = none ∧ dsv_ge a b = none ∧
    dsv_eq a b = some false ∧ dsv_ne a b = some true := by
  cases a <;> cases b <;>
    first
      | exact absurd rfl h
      | exact ⟨rfl, rfl, rfl, rfl, rfl, rfl⟩

/-- Witness for C1 (amended) at the claim's example pair: the ordering
operators return the incomparability signal, equality the default
booleans. -/
theorem c1_cross_kind_comparisons_witness :
    dsv_lt (VRep.loose [LVComp.num 10, LVComp.num 3]) (VRep.date (PDate.mk 2013 5 6)) = none ∧
    dsv_le (VRep.loose [LVComp.num 10, LVComp.num 3]) (VRep.date (PDate.mk 2013 5 6)) = none ∧
    dsv_gt (VRep.loose [LVComp.num 10, LVComp.num 3]) (VRep.date (PDate.mk 2013 5 6)) = none ∧
    dsv_ge (VRep.loose [LVComp.num 10, LVComp.num 3]) (VRep.date (PDate.mk 2013 5 6)) = none ∧
    dsv_eq (VRep.loose [LVComp.num 10, LVComp.num 3]) (VRep.date (PDate.mk 2013 5 6)) =
      some false ∧
    dsv_ne (VRep.loose [LVComp.num 10, LVComp.num 3]) (VRep.date (PDate.mk 2013 5 6)) =
      some true :=
  c1_cross_kind_comparisons (VRep.loose [LVComp.num 10, LVComp.num 3])
    (VRep.date (PDate.mk 2013 5 6)) (by decide)

/-- Characterization of Python set equality: extensional membership. -/
lemma listSetEqb_iff (l1 l2 : List String) :
    listSetEqb l1 l2 = true ↔ ∀ x, x ∈ l1 ↔ x ∈ l2 := by
  simp only [listSetEqb, Bool.and_eq_true, List.all_eq_true]
  constructor
  · rintro ⟨h1, h2⟩ x
    constructor
    · intro hx
      simpa using h1 x hx
    · intro hx
      simpa using h2 x hx
  · intro h
    constructor
    · intro x hx
      simpa using (h x).mp hx
    · intro x hx
      simpa using (h x).mpr hx

/-- `svalEqb` is transitive. -/
lemma svalEqb_trans (a b c : SetArgValue) (h1 : svalEqb a b = true)
    (h2 : svalEqb b c = true) : svalEqb a c = true := by
  cases a <;> cases b <;> simp [svalEqb] at h1 <;> cases c <;> simp [svalEqb] at h2 ⊢
  · exact h1.trans h2
  · rw [listSetEqb_iff] at h1 h2 ⊢
    intro x
    exact (h1 x).trans (h2 x)

/-- A successful `dlookup` answer is an entry of the dictionary. -/
lemma dlookup_mem {α : Type} (d : List (String × α)) (k : String) (v : α)
    (h : dlookup d k = some v) : (k, v) ∈ d := by
  induction d with
  | nil => simp [dlookup] at h
  | cons kv rest ih =>
    obtain ⟨k2, v2⟩ := kv
    by_cases hk : k2 = k
    · subst hk
      simp [dlookup] at h
      simp [h]
    · simp [dlookup, hk] at h
      exact List.mem_cons_of_mem _ (ih h)

/-- With distinct keys, every entry is found by `dlookup`. -/
lemma dlookup_of_mem_nodup {α : Type} (d : List (String × α))
    (hd : (d.map Prod.fst).Nodup) (k : String) (v : α) (h : (k, v) ∈ d) :
    dlookup d k = some v := by
  induction d with
  | nil => simp at h
  | cons kv rest ih =>
    obtain ⟨k2, v2⟩ := kv
    rw [List.map_cons, List.nodup_cons] at hd
    rcases List.mem_cons.mp h with he | hm
    · rw [Prod.mk.injEq] at he
      obtain ⟨hk, hv⟩ := he
      subst hk
      subst hv
      simp [dlookup]
    · have hmap : k ∈ List.map Prod.fst rest := List.mem_map_of_mem Prod.fst hm
      have hk : k2 ≠ k := by
        intro he2
        rw [he2] at hd
        exact hd.1 hmap
      simp [dlookup, hk]
      exact ih hd.2 hm

/-- Python dictionary equality is symmetric (the two conjuncts of
`sdictEqb` swap). -/
lemma sdictEqb_symm (A B : List (String × SetArgValue)) (h : sdictEqb A B = true) :
    sdictEqb B A = true := by
  rw [sdictEqb] at h ⊢
  rw [Bool.and_comm]
  exact h

/-- From `sdictEqb A B` and a successful lookup in `A`, the same key looks
up in `B` to an `svalEqb`-equal value. -/
lemma sdictEqb_lookup_left (A B : List (String × SetArgValue)) (h : sdictEqb A B = true)
    (k : String) (v : SetArgValue) (hv : dlookup A k = some v) :
    ∃ w, dlookup B k = some w ∧ svalEqb v w = true := by
  have hmem := dlookup_mem A k v hv
  simp only [sdictEqb, Bool.and_eq_true] at h
  have h1 := h.1
  rw [List.all_eq_true] at h1
  have h2 : (match dlookup B k with | some w => svalEqb v w | none => false) = true :=
    h1 (k, v) hmem
  cases hw : dlookup B k with
  | none => rw [hw] at h2; simp at h2
  | some w =>
    rw [hw] at h2
    exact ⟨w, rfl, h2⟩

/-- Matching against `C` transfers to matching against a
dictionary-equal `D` (with distinct keys in `D`). -/
lemma sdictEqb_transfer (X C D : List (String × SetArgValue))
    (hD : (D.map Prod.fst).Nodup) (hCD : sdictEqb C D = true)
    (hXC : sdictEqb X C = true) : sdictEqb X D = true := by
  simp only [sdictEqb, Bool.and_eq_true] at hXC
  simp only [sdictEqb, Bool.and_eq_true, List.all_eq_true]
  constructor
  · intro kv hkv
    have hx1 := hXC.1
    rw [List.all_eq_true] at hx1
    have h2 : (match dlookup C kv.1 with | some v => svalEqb kv.2 v | none => false) = true :=
      hx1 kv hkv
    cases hv : dlookup C kv.1 with
    | none => rw [hv] at h2; simp at h2
    | some v =>
      rw [hv] at h2
      obtain ⟨w, hw, hvw⟩ := sdictEqb_lookup_left C D hCD kv.1 v hv
      rw [hw]
      exact svalEqb_trans kv.2 v w h2 hvw
  · intro kv hkv
    have hk2 : dlookup D kv.1 = some kv.2 := dlookup_of_mem_nodup D hD kv.1 kv.2 hkv
    obtain ⟨v2, hv2, hval⟩ := sdictEqb_lookup_left D C (sdictEqb_symm C D hCD) kv.1 kv.2 hk2
    have hmem : (kv.1, v2) ∈ C := dlookup_mem C kv.1 v2 hv2
    have hx2 := hXC.2
    rw [List.all_eq_true] at hx2
    have h3 : (match dlookup X kv.1 with | some u => svalEqb v2 u | none => false) = true :=
      hx2 (kv.1, v2) hmem
    cases hu : dlookup X kv.1 with
    | none => rw [hu] at h3; simp at h3
    | some u =>
      rw [hu] at h3
      exact svalEqb_trans kv.2 v2 u hval h3

/-- Dictionary-equal argument mappings are interchangeable on the right
of the match test. -/
lemma sdictEqb_congr (A B : List (String × SetArgValue))
    (hA : (A.map Prod.fst).Nodup) (hB : (B.map Prod.fst).Nodup)
    (h : sdictEqb A B = true) (X : List (String × SetArgValue)) :
    sdictEqb X A = sdictEqb X B := by
  cases hxa : sdictEqb X A <;> cases hxb : sdictEqb X B
  · rfl
  · exact absurd (sdictEqb_transfer X B A hA (sdictEqb_symm A B h) hxb) (by simp [hxa])
  · exact absurd (sdictEqb_transfer X A B hB h hxa) (by simp [hxb])
  · rfl

/-- `setify_dict` keeps the keys. -/
lemma setify_dict_keys (A : List (String × ArgValue)) :
    (setify_dict A).map Prod.fst = A.map Prod.fst := by
  induction A with
  | nil => rfl
  | cons kv rest ih => simp [setify_dict] at ih ⊢

/-- The checked accumulator loop only depends on the match predicate. -/
lemma latest_fold_checked_congr (A B : List (String × ArgValue))
    (h : ∀ i : Instance, matches_arguments i A = matches_arguments i B) :
    ∀ (insts : List Instance) (acc : Option Instance),
      latest_fold_checked A insts acc = latest_fold_checked B insts acc := by
  intro insts
  induction insts with
  | nil => intro acc; rfl
  | cons i rest ih =>
    intro acc
    simp only [latest_fold_checked, h i]
    by_cases hmb : matches_arguments i B = true
    · simp only [hmb, if_true]
      cases acc with
      | none => exact ih (some i)
      | some cur =>
        by_cases hlt : cur.instance_created < i.instance_created
        · simp only [hlt, if_true]
          exact ih (some i)
        · simp only [hlt, if_false]
          exact ih (some cur)
    · simp only [Bool.not_eq_true] at hmb
      simp only [hmb, Bool.false_eq_true, if_false]
      exact ih acc

/-- C4: two fetch-argument mappings with equal keys and equal values under
set-insensitive list comparison select the same latest instance: the match
test setifies both sides, so `latest_local_instance` answers the same
instance for either mapping over any enumeration of Ready instances. -/
theorem c4_latest_set_insensitive (A B : List (String × ArgValue)) (insts : List Instance)
    (hA : (A.map Prod.fst).Nodup) (hB : (B.map Prod.fst).Nodup)
    (h : sdictEqb (setify_dict A) (setify_dict B) = true) :
    latest_local_instance insts true A = latest_local_instance insts true B := by
  have hA2 : ((setify_dict A).map Prod.fst).Nodup := by rw [setify_dict_keys]; exact hA
  have hB2 : ((setify_dict B).map Prod.fst).Nodup := by rw [setify_dict_keys]; exact hB
  have hm : ∀ i : Instance, matches_arguments i A = matches_arguments i B := by
    intro i
    unfold matches_arguments
    exact sdictEqb_congr (setify_dict A) (setify_dict B) hA2 hB2 h
      (setify_dict i.download_arguments)
  exact latest_fold_checked_congr A B hm insts none

/-- Witness for C4: `{taxids: ["9606","10090"]}` and
`{taxids: ["10090","9606"]}` are equal after setification, an instance
stored with one matches a query with the other, and `latest` answers the
same (most recent) instance for either ordering. -/
theorem c4_latest_set_insensitive_witness :
    sdictEqb (setify_dict [("taxids", ArgValue.list ["9606", "10090"])])
        (setify_dict [("taxids", ArgValue.list ["10090", "9606"])]) = true ∧
    matches_arguments (Instance.mk "a" 1 [("taxids", ArgValue.list ["9606", "10090"])])
        [("taxids", ArgValue.list ["10090", "9606"])] = true ∧
    latest_local_instance
        [Instance.mk "a" 1 [("taxids", ArgValue.list ["9606", "10090"])],
          Instance.mk "b" 2 [("taxids", ArgValue.list ["10090", "9606"])]] true
        [("taxids", ArgValue.list ["9606", "10090"])] =
      latest_local_instance
        [Instance.mk "a" 1 [("taxids", ArgValue.list ["9606", "10090"])],
          Instance.mk "b" 2 [("taxids", ArgValue.list ["10090", "9606"])]] true
        [("taxids", ArgValue.list ["10090", "9606"])] ∧
    latest_local_instance
        [Instance.mk "a" 1 [("taxids", ArgValue.list ["9606", "10090"])],
          Instance.mk "b" 2 [("taxids", ArgValue.list ["10090", "9606"])]] true
        [("taxids", ArgValue.list ["9606", "10090"])] =
      some (Instance.mk "b" 2 [("taxids", ArgValue.list ["10090", "9606"])]) := by
  refine ⟨by decide, by decide, ?_, by decide⟩
  exact c4_latest_set_insensitive [("taxids", ArgValue.list ["9606", "10090"])]
    [("taxids", ArgValue.list ["10090", "9606"])]
    [Instance.mk "a" 1 [("taxids", ArgValue.list ["9606", "10090"])],
      Instance.mk "b" 2 [("taxids", ArgValue.list ["10090", "9606"])]]
    (by decide) (by decide) (by decide)

/-! ### Round-trip machinery for C5 -/

/-- Decimal digit characters decode back to their value. -/
lemma digitVal_digitChar (d : Nat) (h : d < 10) : digitVal (digitChar d) = d := by
  interval_cases d <;> decide

/-- Decimal digit characters are digits. -/
lemma isDigit_digitChar (d : Nat) (h : d < 10) : (digitChar d).isDigit = true := by
  interval_cases d <;> decide

/-- A non-digit character is not a digit character. -/
lemma beq_digitChar_eq_false (p : Char) (hp : p.isDigit = false) (d : Nat) (hd : d < 10) :
    (p == digitChar d) = false := by
  by_cases h : p = digitChar d
  · rw [h, isDigit_digitChar d hd] at hp
    exact absurd hp (by simp)
  · exact beq_eq_false_iff_ne.mpr h

/-- `pyreplace` on the empty string. -/
lemma pyreplace_nil (pat rep : List Char) : pyreplace [] pat rep = [] := by
  simp [pyreplace]

/-- `pyreplace` walks past a position where the pattern does not match. -/
lemma pyreplace_cons_skip (c : Char) (s pat rep : List Char)
    (h : pat.isPrefixOf (c :: s) = false) :
    pyreplace (c :: s) pat rep = c :: pyreplace s pat rep := by
  cases pat with
  | nil => simp [List.isPrefixOf] at h
  | cons p ps => simp [pyreplace, h]

/-- `pyreplace` substitutes at a position where the pattern matches. -/
lemma pyreplace_cons_match (c p : Char) (s ps rep : List Char)
    (h : (p :: ps).isPrefixOf (c :: s) = true) :
    pyreplace (c :: s) (p :: ps) rep = rep ++ pyreplace (s.drop ps.length) (p :: ps) rep := by
  simp [pyreplace, h]

/-- A pattern headed by a non-digit walks past a digit character. -/
lemma pyreplace_skip_nondigit (p : Char) (ps : List Char) (hp : p.isDigit = false)
    (d : Nat) (hd : d < 10) (s rep : List Char) :
    pyreplace (digitChar d :: s) (p :: ps) rep = digitChar d :: pyreplace s (p :: ps) rep := by
  apply pyreplace_cons_skip
  simp [List.isPrefixOf, beq_digitChar_eq_false p hp d hd]

/-- A pattern whose head differs from `c` walks past `c`. -/
lemma pyreplace_skip_char (c p : Char) (ps : List Char) (h : (p == c) = false)
    (s rep : List Char) :
    pyreplace (c :: s) (p :: ps) rep = c :: pyreplace s (p :: ps) rep := by
  apply pyreplace_cons_skip
  simp [List.isPrefixOf, h]

/-- A pattern headed by a non-digit walks past a two-digit block. -/
lemma pyreplace_skip_pad2 (n : Nat) (hn : n < 100) (p : Char) (ps : List Char)
    (hp : p.isDigit = false) (s rep : List Char) :
    pyreplace (pad2 n ++ s) (p :: ps) rep = pad2 n ++ pyreplace s (p :: ps) rep := by
  simp only [pad2, List.cons_append, List.nil_append]
  rw [pyreplace_skip_nondigit p ps hp _ (by omega),
      pyreplace_skip_nondigit p ps hp _ (by omega)]

/-- A pattern headed by a non-digit walks past a four-digit block. -/
lemma pyreplace_skip_pad4 (n : Nat) (hn : n < 10000) (p : Char) (ps : List Char)
    (hp : p.isDigit = false) (s rep : List Char) :
    pyreplace (pad4 n ++ s) (p :: ps) rep = pad4 n ++ pyreplace s (p :: ps) rep := by
  simp only [pad4, List.cons_append, List.nil_append]
  rw [pyreplace_skip_nondigit p ps hp _ (by omega),
      pyreplace_skip_nondigit p ps hp _ (by omega),
      pyreplace_skip_nondigit p ps hp _ (by omega),
      pyreplace_skip_nondigit p ps hp _ (by omega)]

/-- A pattern headed by a non-digit walks past a six-digit block. -/
lemma pyreplace_skip_pad6 (n : Nat) (hn : n < 1000000) (p : Char) (ps : List Char)
    (hp : p.isDigit = false) (s rep : List Char) :
    pyreplace (pad6 n ++ s) (p :: ps) rep = pad6 n ++ pyreplace s (p :: ps) rep := by
  simp only [pad6, List.cons_append, List.nil_append]
  rw [pyreplace_skip_nondigit p ps hp _ (by omega),
      pyreplace_skip_nondigit p ps hp _ (by omega),
      pyreplace_skip_nondigit p ps hp _ (by omega),
      pyreplace_skip_nondigit p ps hp _ (by omega),
      pyreplace_skip_nondigit p ps hp _ (by omega),
      pyreplace_skip_nondigit p ps hp _ (by omega)]

/-- A pattern headed by a non-digit leaves a trailing six-digit block
unchanged. -/
lemma pyreplace_pad6_end (n : Nat) (hn : n < 1000000) (p : Char) (ps : List Char)
    (hp : p.isDigit = false) (rep : List Char) :
    pyreplace (pad6 n) (p :: ps) rep = pad6 n := by
  have h := pyreplace_skip_pad6 n hn p ps hp [] rep
  simpa [pyreplace_nil] using h

/-- A single-character pattern substitutes at its own occurrence. -/
lemma pyreplace_match_single (p : Char) (s rep : List Char) :
    pyreplace (p :: s) [p] rep = rep ++ pyreplace s [p] rep := by
  have h : ([p]).isPrefixOf (p :: s) = true := by simp [List.isPrefixOf]
  simpa using pyreplace_cons_match p p s [] rep h

/-- The `___` pattern substitutes at a three-underscore run. -/
lemma pyreplace_match_us3 (s rep : List Char) :
    pyreplace ('_' :: '_' :: '_' :: s) ['_', '_', '_'] rep =
      rep ++ pyreplace s ['_', '_', '_'] rep := by
  have h : (['_', '_', '_'] : List Char).isPrefixOf ('_' :: '_' :: '_' :: s) = true := by
    simp [List.isPrefixOf]
  simpa using pyreplace_cons_match '_' '_' ('_' :: '_' :: s) ['_', '_'] rep h

/-- The `__` pattern substitutes at a two-underscore run. -/
lemma pyreplace_match_us2 (s rep : List Char) :
    pyreplace ('_' :: '_' :: s) ['_', '_'] rep = rep ++ pyreplace s ['_', '_'] rep := by
  have h : (['_', '_'] : List Char).isPrefixOf ('_' :: '_' :: s) = true := by
    simp [List.isPrefixOf]
  simpa using pyreplace_cons_match '_' '_' ('_' :: s) ['_'] rep h

/-- The `___` pattern walks past a two-underscore run that is followed by
a digit block. -/
lemma pyreplace_us2_skip_P3 (n : Nat) (hn : n < 100) (t rep : List Char) :
    pyreplace ('_' :: '_' :: (pad2 n ++ t)) ['_', '_', '_'] rep =
      '_' :: '_' :: pyreplace (pad2 n ++ t) ['_', '_', '_'] rep := by
  have hb : (('_' : Char) == digitChar (n / 10)) = false :=
    beq_digitChar_eq_false '_' (by decide) _ (by omega)
  simp only [pad2, List.cons_append, List.nil_append]
  rw [pyreplace_cons_skip _ _ _ _ (by simp [List.isPrefixOf, hb]),
      pyreplace_cons_skip _ _ _ _ (by simp [List.isPrefixOf, hb])]

/-- The `___` pattern leaves the encoded fractional part unchanged. -/
lemma pyreplace_usTail_P3 (us : Nat) (hus : us < 1000000) (rep : List Char) :
    pyreplace (usTail us) ['_', '_', '_'] rep = usTail us := by
  by_cases h : us = 0
  · simp [usTail, h, pyreplace_nil]
  · have hb : (('_' : Char) == digitChar (us / 100000)) = false :=
      beq_digitChar_eq_false '_' (by decide) _ (by omega)
    have he : usTail us = '_' :: pad6 us := by simp [usTail, h]
    have hpre : (['_', '_', '_'] : List Char).isPrefixOf ('_' :: pad6 us) = false := by
      simp [pad6, List.isPrefixOf, hb]
    rw [he, pyreplace_cons_skip _ _ _ _ hpre,
        pyreplace_pad6_end us hus '_' ['_', '_'] (by decide)]

/-- The `__` pattern leaves the encoded fractional part unchanged. -/
lemma pyreplace_usTail_P2 (us : Nat) (hus : us < 1000000) (rep : List Char) :
    pyreplace (usTail us) ['_', '_'] rep = usTail us := by
  by_cases h : us = 0
  · simp [usTail, h, pyreplace_nil]
  · have hb : (('_' : Char) == digitChar (us / 100000)) = false :=
      beq_digitChar_eq_false '_' (by decide) _ (by omega)
    have he : usTail us = '_' :: pad6 us := by simp [usTail, h]
    have hpre : (['_', '_'] : List Char).isPrefixOf ('_' :: pad6 us) = false := by
      simp [pad6, List.isPrefixOf, hb]
    rw [he, pyreplace_cons_skip _ _ _ _ hpre,
        pyreplace_pad6_end us hus '_' ['_'] (by decide)]

/-- The `_` pattern turns the encoded fractional part back into the
dotted form. -/
lemma pyreplace_usTail_P1 (us : Nat) (hus : us < 1000000) :
    pyreplace (usTail us) ['_'] ['.'] = microTail us := by
  by_cases h : us = 0
  · simp [usTail, microTail, h, pyreplace_nil]
  · have he : usTail us = '_' :: pad6 us := by simp [usTail, h]
    have hm : microTail us = '.' :: pad6 us := by simp [microTail, h]
    rw [he, hm, pyreplace_match_single '_' (pad6 us) ['.'],
        pyreplace_pad6_end us hus '_' [] (by decide)]
    simp

/-- Patterns that are neither a dot nor digit-headed leave the dotted
fractional part unchanged. -/
lemma pyreplace_microTail_skip (us : Nat) (hus : us < 1000000) (p : Char) (ps : List Char)
    (hp1 : p.isDigit = false) (hp2 : (p == '.') = false) (rep : List Char) :
    pyreplace (microTail us) (p :: ps) rep = microTail us := by
  by_cases h : us = 0
  · simp [microTail, h, pyreplace_nil]
  · have hm : microTail us = '.' :: pad6 us := by simp [microTail, h]
    rw [hm, pyreplace_skip_char '.' p ps hp2,
        pyreplace_pad6_end us hus p ps hp1]

/-- The `.` pattern encodes the dotted fractional part. -/
lemma pyreplace_microTail_dot (us : Nat) (hus : us < 1000000) :
    pyreplace (microTail us) ['.'] ['_'] = usTail us := by
  by_cases h : us = 0
  · simp [microTail, usTail, h, pyreplace_nil]
  · have hm : microTail us = '.' :: pad6 us := by simp [microTail, h]
    have he : usTail us = '_' :: pad6 us := by simp [usTail, h]
    rw [hm, he, pyreplace_match_single '.' (pad6 us) ['_'],
        pyreplace_pad6_end us hus '.' [] (by decide)]
    simp

/-- Encoding stage 1: `replace(' ', '___')` on `str(t)`. -/
lemma stageE1 (y mo d hh mi ss us : Nat) (hy : y < 10000) (hmo : mo < 100) (hd : d < 100)
    (hhh : hh < 100) (hmi : mi < 100) (hss : ss < 100) (hus : us < 1000000) :
    pyreplace (pyStrDatetime (PDateTime.mk y mo d hh mi ss us)) [' '] ['_', '_', '_'] =
      pad4 y ++ '-' :: (pad2 mo ++ '-' :: (pad2 d ++ '_' :: '_' :: '_' ::
        (pad2 hh ++ ':' :: (pad2 mi ++ ':' :: (pad2 ss ++ microTail us))))) := by
  simp only [pyStrDatetime]
  rw [pyreplace_skip_pad4 y hy ' ' [] (by decide),
      pyreplace_skip_char '-' ' ' [] (by decide),
      pyreplace_skip_pad2 mo hmo ' ' [] (by decide),
      pyreplace_skip_char '-' ' ' [] (by decide),
      pyreplace_skip_pad2 d hd ' ' [] (by decide),
      pyreplace_match_single ' ',
      pyreplace_skip_pad2 hh hhh ' ' [] (by decide),
      pyreplace_skip_char ':' ' ' [] (by decide),
      pyreplace_skip_pad2 mi hmi ' ' [] (by decide),
      pyreplace_skip_char ':' ' ' [] (by decide),
      pyreplace_skip_pad2 ss hss ' ' [] (by decide),
      pyreplace_microTail_skip us hus ' ' [] (by decide) (by decide)]
  simp

/-- Encoding stage 2: `replace(':', '__')`. -/
lemma stageE2 (y mo d hh mi ss us : Nat) (hy : y < 10000) (hmo : mo < 100) (hd : d < 100)
    (hhh : hh < 100) (hmi : mi < 100) (hss : ss < 100) (hus : us < 1000000) :
    pyreplace
        (pad4 y ++ '-' :: (pad2 mo ++ '-' :: (pad2 d ++ '_' :: '_' :: '_' ::
          (pad2 hh ++ ':' :: (pad2 mi ++ ':' :: (pad2 ss ++ microTail us))))))
        [':'] ['_', '_'] =
      pad4 y ++ '-' :: (pad2 mo ++ '-' :: (pad2 d ++ '_' :: '_' :: '_' ::
        (pad2 hh ++ '_' :: '_' :: (pad2 mi ++ '_' :: '_' :: (pad2 ss ++ microTail us))))) := by
  rw [pyreplace_skip_pad4 y hy ':' [] (by decide),
      pyreplace_skip_char '-' ':' [] (by decide),
      pyreplace_skip_pad2 mo hmo ':' [] (by decide),
      pyreplace_skip_char '-' ':' [] (by decide),
      pyreplace_skip_pad2 d hd ':' [] (by decide),
      pyreplace_skip_char '_' ':' [] (by decide),
      pyreplace_skip_char '_' ':' [] (by decide),
      pyreplace_skip_char '_' ':' [] (by decide),
      pyreplace_skip_pad2 hh hhh ':' [] (by decide),
      pyreplace_match_single ':',
      pyreplace_skip_pad2 mi hmi ':' [] (by decide),
      pyreplace_match_single ':',
      pyreplace_skip_pad2 ss hss ':' [] (by decide),
      pyreplace_microTail_skip us hus ':' [] (by decide) (by decide)]
  simp

/-- Encoding stage 3: `replace('.', '_')`. -/
lemma stageE3 (y mo d hh mi ss us : Nat) (hy : y < 10000) (hmo : mo < 100) (hd : d < 100)
    (hhh : hh < 100) (hmi : mi < 100) (hss : ss < 100) (hus : us < 1000000) :
    pyreplace
        (pad4 y ++ '-' :: (pad2 mo ++ '-' :: (pad2 d ++ '_' :: '_' :: '_' ::
          (pad2 hh ++ '_' :: '_' :: (pad2 mi ++ '_' :: '_' :: (pad2 ss ++ microTail us))))))
        ['.'] ['_'] =
      encodedDatetime (PDateTime.mk y mo d hh mi ss us) := by
  simp only [encodedDatetime]
  rw [pyreplace_skip_pad4 y hy '.' [] (by decide),
      pyreplace_skip_char '-' '.' [] (by decide),
      pyreplace_skip_pad2 mo hmo '.' [] (by decide),
      pyreplace_skip_char '-' '.' [] (by decide),
      pyreplace_skip_pad2 d hd '.' [] (by decide),
      pyreplace_skip_char '_' '.' [] (by decide),
      pyreplace_skip_char '_' '.' [] (by decide),
      pyreplace_skip_char '_' '.' [] (by decide),
      pyreplace_skip_pad2 hh hhh '.' [] (by decide),
      pyreplace_skip_char '_' '.' [] (by decide),
      pyreplace_skip_char '_' '.' [] (by decide),
      pyreplace_skip_pad2 mi hmi '.' [] (by decide),
      pyreplace_skip_char '_' '.' [] (by decide),
      pyreplace_skip_char '_' '.' [] (by decide),
      pyreplace_skip_pad2 ss hss '.' [] (by decide),
      pyreplace_microTail_dot us hus]

/-- Decoding stage 1: `replace('___', ' ')` on the encoded name. -/
lemma stageD1 (y mo d hh mi ss us : Nat) (hy : y < 10000) (hmo : mo < 100) (hd : d < 100)
    (hhh : hh < 100) (hmi : mi < 100) (hss : ss < 100) (hus : us < 1000000) :
    pyreplace (encodedDatetime (PDateTime.mk y mo d hh mi ss us)) ['_', '_', '_'] [' '] =
      pad4 y ++ '-' :: (pad2 mo ++ '-' :: (pad2 d ++ ' ' ::
        (pad2 hh ++ '_' :: '_' :: (pad2 mi ++ '_' :: '_' :: (pad2 ss ++ usTail us))))) := by
  simp only [encodedDatetime]
  rw [pyreplace_skip_pad4 y hy '_' ['_', '_'] (by decide),
      pyreplace_skip_char '-' '_' ['_', '_'] (by decide),
      pyreplace_skip_pad2 mo hmo '_' ['_', '_'] (by decide),
      pyreplace_skip_char '-' '_' ['_', '_'] (by decide),
      pyreplace_skip_pad2 d hd '_' ['_', '_'] (by decide),
      pyreplace_match_us3,
      pyreplace_skip_pad2 hh hhh '_' ['_', '_'] (by decide),
      pyreplace_us2_skip_P3 mi hmi,
      pyreplace_skip_pad2 mi hmi '_' ['_', '_'] (by decide),
      pyreplace_us2_skip_P3 ss hss,
      pyreplace_skip_pad2 ss hss '_' ['_', '_'] (by decide),
      pyreplace_usTail_P3 us hus]
  simp

/-- Decoding stage 2: `replace('__', ':')`. -/
lemma stageD2 (y mo d hh mi ss us : Nat) (hy : y < 10000) (hmo : mo < 100) (hd : d < 100)
    (hhh : hh < 100) (hmi : mi < 100) (hss : ss < 100) (hus : us < 1000000) :
    pyreplace
        (pad4 y ++ '-' :: (pad2 mo ++ '-' :: (pad2 d ++ ' ' ::
          (pad2 hh ++ '_' :: '_' :: (pad2 mi ++ '_' :: '_' :: (pad2 ss ++ usTail us))))))
        ['_', '_'] [':'] =
      pad4 y ++ '-' :: (pad2 mo ++ '-' :: (pad2 d ++ ' ' ::
        (pad2 hh ++ ':' :: (pad2 mi ++ ':' :: (pad2 ss ++ usTail us))))) := by
  rw [pyreplace_skip_pad4 y hy '_' ['_'] (by decide),
      pyreplace_skip_char '-' '_' ['_'] (by decide),
      pyreplace_skip_pad2 mo hmo '_' ['_'] (by decide),
      pyreplace_skip_char '-' '_' ['_'] (by decide),
      pyreplace_skip_pad2 d hd '_' ['_'] (by decide),
      pyreplace_skip_char ' ' '_' ['_'] (by decide),
      pyreplace_skip_pad2 hh hhh '_' ['_'] (by decide),
      pyreplace_match_us2,
      pyreplace_skip_pad2 mi hmi '_' ['_'] (by decide),
      pyreplace_match_us2,
      pyreplace_skip_pad2 ss hss '_' ['_'] (by decide),
      pyreplace_usTail_P2 us hus]
  simp

/-- Decoding stage 3: `replace('_', '.')`. -/
lemma stageD3 (y mo d hh mi ss us : Nat) (hy : y < 10000) (hmo : mo < 100) (hd : d < 100)
    (hhh : hh < 100) (hmi : mi < 100) (hss : ss < 100) (hus : us < 1000000) :
    pyreplace
        (pad4 y ++ '-' :: (pad2 mo ++ '-' :: (pad2 d ++ ' ' ::
          (pad2 hh ++ ':' :: (pad2 mi ++ ':' :: (pad2 ss ++ usTail us))))))
        ['_'] ['.'] =
      pyStrDatetime (PDateTime.mk y mo d hh mi ss us) := by
  simp only [pyStrDatetime]
  rw [pyreplace_skip_pad4 y hy '_' [] (by decide),
      pyreplace_skip_char '-' '_' [] (by decide),
      pyreplace_skip_pad2 mo hmo '_' [] (by decide),
      pyreplace_skip_char '-' '_' [] (by decide),
      pyreplace_skip_pad2 d hd '_' [] (by decide),
      pyreplace_skip_char ' ' '_' [] (by decide),
      pyreplace_skip_pad2 hh hhh '_' [] (by decide),
      pyreplace_skip_char ':' '_' [] (by decide),
      pyreplace_skip_pad2 mi hmi '_' [] (by decide),
      pyreplace_skip_char ':' '_' [] (by decide),
      pyreplace_skip_pad2 ss hss '_' [] (by decide),
      pyreplace_usTail_P1 us hus]

/-- The encoder equals the explicit encoded shape. -/
lemma dirname_from_datetime_eq (y mo d hh mi ss us : Nat) (hy : y < 10000) (hmo : mo < 100)
    (hd : d < 100) (hhh : hh < 100) (hmi : mi < 100) (hss : ss < 100) (hus : us < 1000000) :
    dirname_from_datetime (PDateTime.mk y mo d hh mi ss us) =
      encodedDatetime (PDateTime.mk y mo d hh mi ss us) := by
  unfold dirname_from_datetime
  rw [stageE1 y mo d hh mi ss us hy hmo hd hhh hmi hss hus,
      stageE2 y mo d hh mi ss us hy hmo hd hhh hmi hss hus,
      stageE3 y mo d hh mi ss us hy hmo hd hhh hmi hss hus]

/-- The decoder restores `str(t)` from the encoded shape. -/
lemma dirnameDecode_encoded (y mo d hh mi ss us : Nat) (hy : y < 10000) (hmo : mo < 100)
    (hd : d < 100) (hhh : hh < 100) (hmi : mi < 100) (hss : ss < 100) (hus : us < 1000000) :
    dirnameDecode (encodedDatetime (PDateTime.mk y mo d hh mi ss us)) =
      pyStrDatetime (PDateTime.mk y mo d hh mi ss us) := by
  unfold dirnameDecode
  rw [stageD1 y mo d hh mi ss us hy hmo hd hhh hmi hss hus,
      stageD2 y mo d hh mi ss us hy hmo hd hhh hmi hss hus,
      stageD3 y mo d hh mi ss us hy hmo hd hhh hmi hss hus]

/-- Reading back a two-digit block. -/
lemma readDigits_pad2 (n : Nat) (hn : n < 100) (rest : List Char) :
    readDigits 0 2 (pad2 n ++ rest) = some (n, rest) := by
  have h1 : n / 10 < 10 := by omega
  have h2 : n % 10 < 10 := by omega
  simp [pad2, readDigits, isDigit_digitChar _ h1, isDigit_digitChar _ h2,
        digitVal_digitChar _ h1, digitVal_digitChar _ h2]
  omega

/-- Reading back a four-digit block. -/
lemma readDigits_pad4 (n : Nat) (hn : n < 10000) (rest : List Char) :
    readDigits 0 4 (pad4 n ++ rest) = some (n, rest) := by
  have h1 : n / 1000 < 10 := by omega
  have h2 : n / 100 % 10 < 10 := by omega
  have h3 : n / 10 % 10 < 10 := by omega
  have h4 : n % 10 < 10 := by omega
  simp [pad4, readDigits, isDigit_digitChar _ h1, isDigit_digitChar _ h2,
        isDigit_digitChar _ h3, isDigit_digitChar _ h4,
        digitVal_digitChar _ h1, digitVal_digitChar _ h2,
        digitVal_digitChar _ h3, digitVal_digitChar _ h4]
  omega

/-- Reading back a six-digit block. -/
lemma readDigits_pad6 (n : Nat) (hn : n < 1000000) (rest : List Char) :
    readDigits 0 6 (pad6 n ++ rest) = some (n, rest) := by
  have h1 : n / 100000 < 10 := by omega
  have h2 : n / 10000 % 10 < 10 := by omega
  have h3 : n / 1000 % 10 < 10 := by omega
  have h4 : n / 100 % 10 < 10 := by omega
  have h5 : n / 10 % 10 < 10 := by omega
  have h6 : n % 10 < 10 := by omega
  simp [pad6, readDigits, isDigit_digitChar _ h1, isDigit_digitChar _ h2,
        isDigit_digitChar _ h3, isDigit_digitChar _ h4, isDigit_digitChar _ h5,
        isDigit_digitChar _ h6,
        digitVal_digitChar _ h1, digitVal_digitChar _ h2, digitVal_digitChar _ h3,
        digitVal_digitChar _ h4, digitVal_digitChar _ h5, digitVal_digitChar _ h6]
  omega

/-- Consuming the expected character. -/
lemma expectChar_cons (c : Char) (rest : List Char) :
    expectChar c (c :: rest) = some rest := by
  simp [expectChar]

set_option maxHeartbeats 3000000 in
/-- The canonical parse inverts `str(datetime)` on valid field values. -/
lemma parse_pyStr (y mo d hh mi ss us : Nat)
    (hv : validDT (PDateTime.mk y mo d hh mi ss us)) :
    parseCanonicalDatetime (pyStrDatetime (PDateTime.mk y mo d hh mi ss us)) =
      some (PDateTime.mk y mo d hh mi ss us) := by
  have hb : 1 ≤ y ∧ y ≤ 9999 ∧ 1 ≤ mo ∧ mo ≤ 12 ∧ 1 ≤ d ∧ d ≤ 31 ∧ hh ≤ 23 ∧
      mi ≤ 59 ∧ ss ≤ 59 ∧ us ≤ 999999 := hv
  obtain ⟨h1, h2, h3, h4, h5, h6, h7, h8, h9, h10⟩ := hb
  by_cases hus : us = 0
  · subst hus
    have hmt : microTail 0 = [] := by simp [microTail]
    have hss2 : readDigits 0 2 (pad2 ss) = some (ss, []) := by
      have h := readDigits_pad2 ss (by omega) []
      simpa using h
    simp only [pyStrDatetime, parseCanonicalDatetime, hmt, List.append_nil]
    rw [readDigits_pad4 y (by omega)]
    simp only [Option.some_bind, expectChar_cons,
      readDigits_pad2 mo (by omega), readDigits_pad2 d (by omega),
      readDigits_pad2 hh (by omega), readDigits_pad2 mi (by omega), hss2]
    rw [if_pos]
    exact hv
  · have hmt : microTail us = '.' :: pad6 us := by simp [microTail, hus]
    have hp6 : readDigits 0 6 (pad6 us) = some (us, []) := by
      have h := readDigits_pad6 us (by omega) []
      simpa using h
    simp only [pyStrDatetime, parseCanonicalDatetime, hmt]
    rw [readDigits_pad4 y (by omega)]
    simp only [Option.some_bind, expectChar_cons,
      readDigits_pad2 mo (by omega), readDigits_pad2 d (by omega),
      readDigits_pad2 hh (by omega), readDigits_pad2 mi (by omega),
      readDigits_pad2 ss (by omega), hp6]
    rw [if_pos]
    exact hv

/-- C5: rendering a timestamp as a directory name with
`_dirname_from_datetime` and decoding it back with
`_datetime_from_dirname` reproduces the timestamp exactly, for every
valid timestamp (in particular for every one carrying sub-second,
microsecond, precision). -/
theorem c5_dirname_datetime_roundtrip (t : PDateTime) (h : validDT t) :
    datetime_from_dirname (dirname_from_datetime t) = some t := by
  obtain ⟨y, mo, d, hh, mi, ss, us⟩ := t
  have hb : 1 ≤ y ∧ y ≤ 9999 ∧ 1 ≤ mo ∧ mo ≤ 12 ∧ 1 ≤ d ∧ d ≤ 31 ∧ hh ≤ 23 ∧
      mi ≤ 59 ∧ ss ≤ 59 ∧ us ≤ 999999 := h
  obtain ⟨h1, h2, h3, h4, h5, h6, h7, h8, h9, h10⟩ := hb
  rw [dirname_from_datetime_eq y mo d hh mi ss us (by omega) (by omega) (by omega)
        (by omega) (by omega) (by omega) (by omega)]
  unfold datetime_from_dirname
  rw [dirnameDecode_encoded y mo d hh mi ss us (by omega) (by omega) (by omega)
        (by omega) (by omega) (by omega) (by omega)]
  exact parse_pyStr y mo d hh mi ss us h

/-- Witness for C5 at a concrete microsecond-precision timestamp. -/
theorem c5_dirname_datetime_roundtrip_witness :
    validDT (PDateTime.mk 2020 1 2 3 4 5 123456) ∧
    datetime_from_dirname (dirname_from_datetime (PDateTime.mk 2020 1 2 3 4 5 123456)) =
      some (PDateTime.mk 2020 1 2 3 4 5 123456) :=
  ⟨by decide, c5_dirname_datetime_roundtrip (PDateTime.mk 2020 1 2 3 4 5 123456) (by decide)⟩

end GraphPipeline
